import Mathlib

/-!
Verification of the Resilience-ROI-Calculator portfolio profitability model.

The repository's core computation is the pure arithmetic function
`calculate_metrics` (src/Home.py, lines 112-156; repeated in
src/pages/Risk_Sensitivity.py and src/pages/Conversion_Elasticity.py),
plus the campaign ranking / lift-curve logic of
src/pages/Carrier_Campaign_Prioritizer.py and
src/pages/2_Carrier_Campaign_Prioritizer.py, the guarded ROI display
ratios, and the `currency_input` text-to-number helper.

Python's float arithmetic is embedded as exact rational arithmetic (ℚ):
every formula in the model is a polynomial or a guarded division, and the
spec states all properties in exact arithmetic.
-/

/-- The input record of the portfolio profitability model.  The spec calls
this record `PortfolioParameters`; the source reads the same eleven values
from sidebar widgets into the globals named here (src/Home.py, lines
62-108): `n_homes`, `avg_premium`, `avg_tiv`, `expense_ratio`,
`burn_prob` (the spec's `incident_probability`), `mdr_unmitigated`,
`mdr_mitigated`, `conversion_rate`, `faura_cost` (the spec's
`program_cost_per_home`), `gift_card`, `premium_discount`.  Percentage
widgets are already divided by 100 at the boundary, so every field here is
the plain number the formulas consume. -/
structure PortfolioParameters where
  n_homes : ℚ
  avg_premium : ℚ
  avg_tiv : ℚ
  expense_ratio : ℚ
  burn_prob : ℚ
  mdr_unmitigated : ℚ
  mdr_mitigated : ℚ
  conversion_rate : ℚ
  faura_cost : ℚ
  gift_card : ℚ
  premium_discount : ℚ
deriving Repr, DecidableEq

/-- The dictionary returned by `calculate_metrics` (src/Home.py, lines
146-156), one field per key. -/
structure Metrics where
  sq_profit : ℚ
  sq_losses : ℚ
  sq_expenses : ℚ
  faura_profit : ℚ
  faura_losses : ℚ
  faura_program_cost : ℚ
  faura_incentives : ℚ
  faura_expenses : ℚ
  total_premium : ℚ
deriving Repr, DecidableEq

/-- Shallow embedding of `calculate_metrics` (src/Home.py, lines 112-156):
status-quo and mitigated profit for a portfolio of homes.  Each `let`
mirrors one intermediate variable of the source, in source order. -/
def calculate_metrics (p : PortfolioParameters) : Metrics :=
  let total_premium := p.n_homes * p.avg_premium
  let total_uw_expense := total_premium * p.expense_ratio
  let sq_losses := p.n_homes * p.avg_tiv * p.burn_prob * p.mdr_unmitigated
  let sq_total_cost := total_uw_expense + sq_losses
  let sq_profit := total_premium - sq_total_cost
  let n_converted := p.n_homes * p.conversion_rate
  let n_unconverted := p.n_homes * (1 - p.conversion_rate)
  let faura_loss_unconverted :=
    n_unconverted * p.avg_tiv * p.burn_prob * p.mdr_unmitigated
  let faura_loss_converted :=
    n_converted * p.avg_tiv * p.burn_prob * p.mdr_mitigated
  let faura_total_losses := faura_loss_unconverted + faura_loss_converted
  let total_faura_fee := p.n_homes * p.faura_cost
  let total_gift_cards := n_converted * p.gift_card
  let total_discounts := n_converted * p.premium_discount
  let faura_total_cost :=
    total_uw_expense + faura_total_losses + total_faura_fee +
      total_gift_cards + total_discounts
  let faura_profit := total_premium - faura_total_cost
  { sq_profit := sq_profit
    sq_losses := sq_losses
    sq_expenses := total_uw_expense
    faura_profit := faura_profit
    faura_losses := faura_total_losses
    faura_program_cost := total_faura_fee
    faura_incentives := total_gift_cards + total_discounts
    faura_expenses := total_uw_expense
    total_premium := total_premium }

/-- The dashboard's `program_investment` (src/Home.py, line 188): program
fees plus incentives, the spec's `total_program_cost`. -/
def total_program_cost (m : Metrics) : ℚ :=
  m.faura_program_cost + m.faura_incentives

/-- The spec's `claims_saved`: status-quo expected losses minus mitigated
expected losses (spec section 3; the loss delta between the two columns of
the dashboard table in src/Home.py). -/
def claims_saved (m : Metrics) : ℚ :=
  m.sq_losses - m.faura_losses

/-- The spec's `net_roi = claims_saved - total_program_cost` (spec section
3); algebraically this is the dashboard's `profit_diff`
(src/Home.py, line 165). -/
def net_roi (m : Metrics) : ℚ :=
  claims_saved m - total_program_cost m

/-- The concrete scenario of spec section 8, property 6, with all
percentages already expressed as fractions. -/
def demo_params : PortfolioParameters :=
  { n_homes := 100
    avg_premium := 10000
    avg_tiv := 1000000
    expense_ratio := 15/100
    burn_prob := 1/100
    mdr_unmitigated := 80/100
    mdr_mitigated := 30/100
    conversion_rate := 20/100
    faura_cost := 30
    gift_card := 50
    premium_discount := 100 }

/-- Claim C1: on the concrete scenario (100 homes, 10000 premium, 1000000
TIV, 15% expense ratio, 1% incident probability, MDRs 80%/30%, 20%
conversion, 30 program cost, 50 gift card, 100 discount),
`calculate_metrics` returns total_premium 1000000, total_expense 150000,
sq_losses 800000, sq_profit 50000, mitigated_losses 700000,
total_program_cost 6000, mitigated_profit 144000, claims_saved 100000 and
net_roi 94000. -/
theorem calculate_metrics_demo_scenario :
    (calculate_metrics demo_params).total_premium = 1000000 ∧
    (calculate_metrics demo_params).sq_expenses = 150000 ∧
    (calculate_metrics demo_params).sq_losses = 800000 ∧
    (calculate_metrics demo_params).sq_profit = 50000 ∧
    (calculate_metrics demo_params).faura_losses = 700000 ∧
    total_program_cost (calculate_metrics demo_params) = 6000 ∧
    (calculate_metrics demo_params).faura_profit = 144000 ∧
    claims_saved (calculate_metrics demo_params) = 100000 ∧
    net_roi (calculate_metrics demo_params) = 94000 := by
  refine ⟨?_, ?_, ?_, ?_, ?_, ?_, ?_, ?_, ?_⟩ <;>
    norm_num [calculate_metrics, demo_params, total_program_cost,
      claims_saved, net_roi]

/-- Claim C2: with `conversion_rate` set to 0, the mitigated profit equals
the original parameters' status-quo profit minus the fixed per-home program
fee `n_homes * faura_cost`: at 0% conversion mitigated losses equal
status-quo losses and no incentives are paid, but the fee is still
charged. -/
theorem zero_conversion_equivalence (p : PortfolioParameters) :
    (calculate_metrics { p with conversion_rate := 0 }).faura_profit =
      (calculate_metrics p).sq_profit - p.n_homes * p.faura_cost := by
  simp only [calculate_metrics]
  ring

/-- Claim C8: at `conversion_rate = 1` the mitigated losses are exactly
`n_homes * avg_tiv * burn_prob * mdr_mitigated`; the unconverted loss term
vanishes. -/
theorem full_conversion_losses (p : PortfolioParameters) :
    (calculate_metrics { p with conversion_rate := 1 }).faura_losses =
      p.n_homes * p.avg_tiv * p.burn_prob * p.mdr_mitigated := by
  simp only [calculate_metrics]
  ring

/-- Claim C4: doubling `n_homes` with every other parameter fixed exactly
doubles total_premium, sq_losses, mitigated losses, and total program cost
(fees plus incentives): the model is linear in home count with no fixed
per-portfolio term. -/
theorem linear_in_home_count (p : PortfolioParameters) :
    (calculate_metrics { p with n_homes := 2 * p.n_homes }).total_premium =
      2 * (calculate_metrics p).total_premium ∧
    (calculate_metrics { p with n_homes := 2 * p.n_homes }).sq_losses =
      2 * (calculate_metrics p).sq_losses ∧
    (calculate_metrics { p with n_homes := 2 * p.n_homes }).faura_losses =
      2 * (calculate_metrics p).faura_losses ∧
    total_program_cost (calculate_metrics { p with n_homes := 2 * p.n_homes }) =
      2 * total_program_cost (calculate_metrics p) := by
  refine ⟨?_, ?_, ?_, ?_⟩ <;>
    (simp only [calculate_metrics, total_program_cost]; ring)

/-- Claim C3: with non-negative `n_homes`, `avg_tiv`, `burn_prob` and
`mdr_mitigated ≤ mdr_unmitigated`, the mitigated losses are non-increasing
in the conversion rate: a higher conversion rate never increases expected
losses. -/
theorem mitigated_losses_antitone (p : PortfolioParameters) (c1 c2 : ℚ)
    (hn : 0 ≤ p.n_homes) (ht : 0 ≤ p.avg_tiv) (hb : 0 ≤ p.burn_prob)
    (hm : p.mdr_mitigated ≤ p.mdr_unmitigated) (hc : c1 ≤ c2) :
    (calculate_metrics { p with conversion_rate := c2 }).faura_losses ≤
      (calculate_metrics { p with conversion_rate := c1 }).faura_losses := by
  simp only [calculate_metrics]
  have hkey : 0 ≤ p.n_homes * p.avg_tiv * p.burn_prob *
      ((c2 - c1) * (p.mdr_unmitigated - p.mdr_mitigated)) := by
    have h1 : 0 ≤ p.n_homes * p.avg_tiv * p.burn_prob := by positivity
    have h2 : 0 ≤ (c2 - c1) * (p.mdr_unmitigated - p.mdr_mitigated) :=
      mul_nonneg (by linarith) (by linarith)
    exact mul_nonneg h1 h2
  nlinarith [hkey]

/-- Witness for C3: the antitonicity theorem applied at the demo scenario
with conversion rates 1/5 ≤ 1/2. -/
theorem mitigated_losses_antitone_witness :
    (calculate_metrics { demo_params with conversion_rate := 1/2 }).faura_losses ≤
      (calculate_metrics { demo_params with conversion_rate := 1/5 }).faura_losses :=
  mitigated_losses_antitone demo_params (1/5) (1/2)
    (by norm_num [demo_params]) (by norm_num [demo_params])
    (by norm_num [demo_params]) (by norm_num [demo_params]) (by norm_num)

/-- One row of the simulated carrier portfolio dataframe built by
`generate_portfolio` (src/pages/Carrier_Campaign_Prioritizer.py, lines
72-106): total insured value, annual fire probability, susceptibility
(ignition probability derived from the resilience score) and annual
premium.  The random generation itself is display glue; the ranking and
lift-curve claims quantify over every portfolio. -/
structure PolicyRecord where
  tiv : ℚ
  fire_prob : ℚ
  susceptibility : ℚ
  annual_premium : ℚ
deriving Repr, DecidableEq

/-- The Expected_Loss_Annual column (src/pages/Carrier_Campaign_Prioritizer.py,
line 103): TIV x P(fire) x susceptibility, the risk score every ranking
uses (Rank_Risk, line 111, is this same column). -/
def Expected_Loss_Annual (r : PolicyRecord) : ℚ :=
  r.tiv * r.fire_prob * r.susceptibility

/-- The Underwriting_Gap column (src/pages/Carrier_Campaign_Prioritizer.py,
line 104): expected loss minus annual premium. -/
def Underwriting_Gap (r : PolicyRecord) : ℚ :=
  Expected_Loss_Annual r - r.annual_premium

/-- The descending-risk order used by df.sort_values(rank_col,
ascending=False) with rank_col = Rank_Risk: a record comes before another
when its Expected_Loss_Annual is at least as large. -/
def byRiskDesc (a b : PolicyRecord) : Prop :=
  Expected_Loss_Annual b ≤ Expected_Loss_Annual a

instance : DecidableRel byRiskDesc := fun a b =>
  inferInstanceAs (Decidable (Expected_Loss_Annual b ≤ Expected_Loss_Annual a))

instance : IsTotal PolicyRecord byRiskDesc :=
  ⟨fun a b => le_total (Expected_Loss_Annual b) (Expected_Loss_Annual a)⟩

instance : IsTrans PolicyRecord byRiskDesc :=
  ⟨fun _ _ _ hab hbc => le_trans hbc hab⟩

/-- df.sort_values("Rank_Risk", ascending=False): the portfolio sorted by
descending risk score.  The source's sort is pandas quicksort; the spec
leaves the tie-break unspecified and allows a stable sort, embedded here
as insertion sort. -/
def sort_values_desc (df : List PolicyRecord) : List PolicyRecord :=
  df.insertionSort byRiskDesc

/-- Pandas Series.cumsum starting from a running total `acc`: element i of
the result is `acc` plus the sum of the first i+1 inputs. -/
def cumsum_from (acc : ℚ) : List ℚ → List ℚ
  | [] => []
  | x :: xs => (acc + x) :: cumsum_from (acc + x) xs

/-- The Cum_Risk column of `get_lift_curve`
(src/pages/Carrier_Campaign_Prioritizer.py, line 241): cumulative sum of
the risk-sorted Expected_Loss_Annual column. -/
def Cum_Risk (df : List PolicyRecord) : List ℚ :=
  cumsum_from 0 ((sort_values_desc df).map Expected_Loss_Annual)

/-- Shallow embedding of `get_lift_curve`
(src/pages/Carrier_Campaign_Prioritizer.py, lines 239-244) for the
Rank_Risk strategy: pairs of fraction of homes targeted, (i+1)/n, and
cumulative risk captured.  The constant Strategy label column is display
glue and is omitted. -/
def get_lift_curve (df : List PolicyRecord) : List (ℚ × ℚ) :=
  (Cum_Risk df).enum.map
    (fun ic => (((ic.1 : ℚ) + 1) / (df.length : ℚ), ic.2))

/-- The dictionary returned by `evaluate_campaign`
(src/pages/Carrier_Campaign_Prioritizer.py, lines 115-124), minus the
constant Name label. -/
structure CampaignResult where
  total_risk_targeted : ℚ
  total_gap_targeted : ℚ
  selection : List PolicyRecord
deriving Repr, DecidableEq

/-- Shallow embedding of `evaluate_campaign`
(src/pages/Carrier_Campaign_Prioritizer.py, lines 115-124) for the
Rank_Risk strategy: clamp the budget to the portfolio size, sort by
descending risk, take the head, and total the selection's risk and gap
columns. -/
def evaluate_campaign (df : List PolicyRecord) (budget_count : ℕ) :
    CampaignResult :=
  let safe_budget := min budget_count df.length
  let campaign := (sort_values_desc df).take safe_budget
  { total_risk_targeted := (campaign.map Expected_Loss_Annual).sum
    total_gap_targeted := (campaign.map Underwriting_Gap).sum
    selection := campaign }

/-- The complement of the `evaluate_campaign` selection: the rows of the
risk-sorted portfolio that .head(safe_budget) leaves out. -/
def campaign_rest (df : List PolicyRecord) (budget_count : ℕ) :
    List PolicyRecord :=
  (sort_values_desc df).drop (min budget_count df.length)

/-- A running cumulative sum started at `acc` stays at or above `acc` at
its first entry when the inputs are non-negative. -/
theorem cumsum_from_head (acc : ℚ) (xs : List ℚ) (h : ∀ x ∈ xs, 0 ≤ x) :
    ∀ y ∈ (cumsum_from acc xs).head?, acc ≤ y := by
  cases xs with
  | nil => simp [cumsum_from]
  | cons x xs =>
      simp only [cumsum_from, List.head?_cons, Option.mem_def,
        Option.some.injEq]
      intro y hy
      have hx : 0 ≤ x := h x (by simp)
      linarith [hy]

/-- A cumulative sum of non-negative inputs is non-decreasing. -/
theorem cumsum_from_chain (acc : ℚ) (xs : List ℚ) (h : ∀ x ∈ xs, 0 ≤ x) :
    List.Chain' (· ≤ ·) (cumsum_from acc xs) := by
  induction xs generalizing acc with
  | nil => simp [cumsum_from]
  | cons x xs ih =>
      simp only [cumsum_from]
      rw [List.chain'_cons']
      refine ⟨?_, ih (acc + x) (fun y hy => h y (by simp [hy]))⟩
      exact cumsum_from_head (acc + x) xs (fun y hy => h y (by simp [hy]))

/-- The last entry of a non-empty cumulative sum is the starting total plus
the sum of all inputs. -/
theorem cumsum_from_getLast (acc : ℚ) (xs : List ℚ) (h : xs ≠ []) :
    (cumsum_from acc xs).getLast? = some (acc + xs.sum) := by
  induction xs generalizing acc with
  | nil => exact absurd rfl h
  | cons x xs ih =>
      cases xs with
      | nil => simp [cumsum_from]
      | cons y ys =>
          calc (cumsum_from acc (x :: y :: ys)).getLast?
              = ((acc + x) :: (acc + x + y) ::
                  cumsum_from (acc + x + y) ys).getLast? := rfl
            _ = ((acc + x + y) :: cumsum_from (acc + x + y) ys).getLast? :=
                List.getLast?_cons_cons
            _ = (cumsum_from (acc + x) (y :: ys)).getLast? := rfl
            _ = some (acc + x + (y :: ys).sum) := ih (acc + x) (by simp)
            _ = some (acc + (x :: y :: ys).sum) := by
                simp only [List.sum_cons, Option.some.injEq]; ring

/-- Claim C5: for a portfolio with non-negative risk scores, the Cum_Risk
column of the lift curve (the second component of each pair) is
non-decreasing and, when the portfolio is non-empty, its final value is
the sum of every risk score in the portfolio. -/
theorem lift_curve_monotone (df : List PolicyRecord)
    (h : ∀ r ∈ df, 0 ≤ Expected_Loss_Annual r) :
    (get_lift_curve df).map Prod.snd = Cum_Risk df ∧
    List.Chain' (· ≤ ·) (Cum_Risk df) ∧
    (df ≠ [] → (Cum_Risk df).getLast? =
      some ((df.map Expected_Loss_Annual).sum)) := by
  have hperm : (sort_values_desc df).Perm df :=
    List.perm_insertionSort byRiskDesc df
  have hmap : ((sort_values_desc df).map Expected_Loss_Annual).Perm
      (df.map Expected_Loss_Annual) := hperm.map Expected_Loss_Annual
  have hnonneg : ∀ x ∈ (sort_values_desc df).map Expected_Loss_Annual,
      0 ≤ x := by
    intro x hx
    obtain ⟨r, hr, hrx⟩ := List.mem_map.mp hx
    exact hrx ▸ h r (hperm.mem_iff.mp hr)
  refine ⟨?_, ?_, ?_⟩
  · rw [get_lift_curve, List.map_map]
    have hsnd : (Prod.snd ∘ fun ic : ℕ × ℚ =>
        (((ic.1 : ℚ) + 1) / (df.length : ℚ), ic.2)) = Prod.snd := rfl
    rw [hsnd, List.enum_map_snd]
  · exact cumsum_from_chain 0 _ hnonneg
  · intro hne
    have hne2 : (sort_values_desc df).map Expected_Loss_Annual ≠ [] := by
      intro hnil
      exact hne (List.map_eq_nil_iff.mp ((hnil ▸ hmap).symm.eq_nil))
    rw [Cum_Risk, cumsum_from_getLast 0 _ hne2, hmap.sum_eq]
    simp

/-- Claim C6: `evaluate_campaign` selects exactly the records with the
`budget_count` largest risk scores, in descending risk order: the
selection is sorted descending, the selection together with the remaining
rows is a permutation of the portfolio, every unselected record's risk
score is at most every selected one's, an empty portfolio yields an empty
selection, and a zero budget yields an empty selection. -/
theorem evaluate_campaign_top_budget (df : List PolicyRecord) (b : ℕ) :
    List.Sorted byRiskDesc (evaluate_campaign df b).selection ∧
    ((evaluate_campaign df b).selection ++ campaign_rest df b).Perm df ∧
    (∀ r ∈ campaign_rest df b, ∀ s ∈ (evaluate_campaign df b).selection,
      Expected_Loss_Annual r ≤ Expected_Loss_Annual s) ∧
    (evaluate_campaign [] b).selection = [] ∧
    (evaluate_campaign df 0).selection = [] := by
  have hsorted : List.Sorted byRiskDesc (sort_values_desc df) :=
    List.sorted_insertionSort byRiskDesc df
  have hperm : (sort_values_desc df).Perm df :=
    List.perm_insertionSort byRiskDesc df
  have hsel : (evaluate_campaign df b).selection =
      (sort_values_desc df).take (min b df.length) := rfl
  refine ⟨?_, ?_, ?_, ?_, ?_⟩
  · rw [hsel]
    exact hsorted.sublist (List.take_sublist _ _)
  · rw [hsel, campaign_rest, List.take_append_drop]
    exact hperm
  · intro r hr s hs
    have hpair : List.Pairwise byRiskDesc
        ((sort_values_desc df).take (min b df.length) ++
          (sort_values_desc df).drop (min b df.length)) := by
      rw [List.take_append_drop]
      exact hsorted
    exact (List.pairwise_append.mp hpair).2.2 s (hsel ▸ hs) r hr
  · simp [evaluate_campaign, sort_values_desc]
  · simp [evaluate_campaign]

/-- Claim C10: the `evaluate_campaign` selection has exactly
min(budget, portfolio size) records, and it is a sub-permutation of the
portfolio: a budget beyond the portfolio size adds no duplicated or extra
records. -/
theorem evaluate_campaign_selection_size (df : List PolicyRecord) (b : ℕ) :
    (evaluate_campaign df b).selection.length = min b df.length ∧
    (evaluate_campaign df b).selection.Subperm df := by
  have hperm : (sort_values_desc df).Perm df :=
    List.perm_insertionSort byRiskDesc df
  have hsel : (evaluate_campaign df b).selection =
      (sort_values_desc df).take (min b df.length) := rfl
  constructor
  · rw [hsel, List.length_take, hperm.length_eq]
    omega
  · rw [hsel]
    exact ((List.take_sublist _ _).subperm).trans hperm.subperm

/-- A small concrete portfolio, in no particular risk order, used to
instantiate the campaign theorems. -/
def demo_portfolio : List PolicyRecord :=
  [{ tiv := 500000, fire_prob := 2/100, susceptibility := 1/4,
     annual_premium := 2000 },
   { tiv := 250000, fire_prob := 1/100, susceptibility := 1/10,
     annual_premium := 1000 },
   { tiv := 1000000, fire_prob := 1/100, susceptibility := 1/2,
     annual_premium := 3000 }]

/-- Witness for C5: the lift-curve theorem applied to the concrete
three-record portfolio, whose risk scores 2500, 250 and 5000 are all
non-negative. -/
theorem lift_curve_monotone_witness :
    (get_lift_curve demo_portfolio).map Prod.snd = Cum_Risk demo_portfolio ∧
    List.Chain' (· ≤ ·) (Cum_Risk demo_portfolio) ∧
    (demo_portfolio ≠ [] → (Cum_Risk demo_portfolio).getLast? =
      some ((demo_portfolio.map Expected_Loss_Annual).sum)) :=
  lift_curve_monotone demo_portfolio (by
    intro r hr
    simp only [demo_portfolio, List.mem_cons, List.not_mem_nil,
      or_false] at hr
    rcases hr with h | h | h <;> subst h <;> norm_num [Expected_Loss_Annual])

/-- The ROI-on-mitigation-spend display metric (src/Home.py, lines
187-193): profit improvement over total program investment, times 100; the
dashboard shows the 0 sentinel instead of dividing when the investment is
not positive. -/
def program_investment_roi (profit_diff program_investment : ℚ) : ℚ :=
  if program_investment > 0 then profit_diff / program_investment * 100
  else 0

/-- The net program ROI multiplier
(src/pages/Carrier_Campaign_Prioritizer.py, line 166): net savings over
total program cost, with a 0 sentinel when the cost is not positive. -/
def net_program_roi (total_savings cost : ℚ) : ℚ :=
  if cost > 0 then (total_savings - cost) / cost else 0

/-- Claim C7: both display-ratio computations are guarded: with a zero
denominator (zero total program cost or zero program investment) they
return the sentinel 0 instead of dividing, so no division-by-zero failure
can escape. -/
theorem roi_zero_denominator_sentinel (d s : ℚ) :
    program_investment_roi d 0 = 0 ∧ net_program_roi s 0 = 0 := by
  constructor <;> simp [program_investment_roi, net_program_roi]


